import Mathlib

/-!
Verification of the ASR client engine (`platforms/asr-client/src/asr_engine.c`).

The development shallowly embeds the orchestration logic of the demo ASR
client: the notification data model, the response classifiers, the two
MRCP message builders, the audio stream-read callback, and the session
state machine (`asr_session_run`) together with session teardown
(`asr_session_destroy`) and launch (`asr_session_launch`).

Modelling conventions:
* Pool/heap allocation (apr_palloc, header prepare) is modelled as always
  succeeding; explicit failure points of the code (message creation,
  message send, channel add, file open, thread create) are environment
  booleans.
* The two execution contexts (worker thread and the stack's dispatch
  context invoking `app_message_handler`) are modelled by an explicit
  delivery schedule: each blocking wait of the worker may receive one
  message delivered while the worker is blocked (`wake`), and a message
  may also be delivered at any point where the worker does not hold the
  mutex (`gap` slots between the locked sections).  The mutex discipline
  of the code is captured by the fact that a delivery can only be
  interposed at these points.
* The worker's actions are instrumented: the run produces a trace of
  events recording each wait (with the mailbox contents at the moment
  the wait begins), each mailbox and streaming-flag access (with the
  mutex-held status at that access), each issued request, the timeout
  exit of the result loop, the result-parse step and resource release.
* The C float literal `0.87f` is modelled by the rational value the
  source writes (`87/100`); no floating-point arithmetic occurs.
-/

/-! ## Protocol data model (mrcp_message / mrcp_app_message) -/

/-- `mrcp_message_type_e`: start-line message type of an MRCP control
message. -/
inductive MrcpMessageType where
  | request
  | response
  | event
deriving DecidableEq, Repr

/-- `mrcp_request_state_e`: completion state reported by a control
response. -/
inductive MrcpRequestState where
  | complete
  | inprogress
  | pending
deriving DecidableEq, Repr

/-- `MRCP_VERSION_2` of `mrcp_start_line.version`. -/
def MRCP_VERSION_2 : Nat := 2

/-- Recognizer method identifiers (`mrcp_recog_method_id`), as used in
`start_line.method_id` of requests. -/
def RECOGNIZER_DEFINE_GRAMMAR : Nat := 2

def RECOGNIZER_RECOGNIZE : Nat := 3

/-- Recognizer event identifiers (`mrcp_recog_event_id`), as used in
`start_line.method_id` of events. -/
def RECOGNIZER_START_OF_INPUT : Nat := 0

def RECOGNIZER_RECOGNITION_COMPLETE : Nat := 1

/-- The `mrcp_start_line_t` fields the client inspects or sets. -/
structure MrcpStartLine where
  version : Nat
  message_type : MrcpMessageType
  request_state : MrcpRequestState
  method_id : Nat
deriving DecidableEq, Repr

/-- Generic header fields set by the client
(`mrcp_generic_header_t`); `none` means the field was not assigned. -/
structure GenericHeader where
  content_type : Option String
  content_id : Option String
deriving DecidableEq, Repr

/-- Generic header property identifiers (`mrcp_generic_header_id`). -/
def GENERIC_HEADER_CONTENT_TYPE : Nat := 3

def GENERIC_HEADER_CONTENT_ID : Nat := 4

/-- Recognizer header fields set by the client (`mrcp_recog_header_t`);
`none` means the field was not assigned.  `confidence_threshold` holds
the rational value of the assigned literal. -/
structure RecogHeader where
  cancel_if_queue : Option Bool
  no_input_timeout : Option Nat
  recognition_timeout : Option Nat
  start_input_timers : Option Bool
  confidence_threshold : Option ℚ
deriving DecidableEq, Repr

/-- Recognizer header property identifiers (`mrcp_recog_header_id`). -/
def RECOGNIZER_HEADER_CONFIDENCE_THRESHOLD : Nat := 0

def RECOGNIZER_HEADER_NO_INPUT_TIMEOUT : Nat := 4

def RECOGNIZER_HEADER_RECOGNITION_TIMEOUT : Nat := 5

def RECOGNIZER_HEADER_START_INPUT_TIMERS : Nat := 14

def RECOGNIZER_HEADER_CANCEL_IF_QUEUE : Nat := 13

/-- An MRCP control message (`mrcp_message_t`): the start line, the two
header sections the client touches, the property sets the client adds
to, and the body. -/
structure MrcpMessage where
  start_line : MrcpStartLine
  generic_header : GenericHeader
  recog_header : RecogHeader
  generic_properties : List Nat
  resource_properties : List Nat
  body : String
deriving DecidableEq, Repr

/-- `mrcp_app_message_type_e`. -/
inductive AppMessageType where
  | signaling
  | control
deriving DecidableEq, Repr

/-- `mrcp_sig_message_type_e`. -/
inductive SigMessageType where
  | request
  | response
  | event
deriving DecidableEq, Repr

/-- `mrcp_sig_status_code_e`. -/
inductive SigStatusCode where
  | success
  | failure
  | terminate
  | cancel
deriving DecidableEq, Repr

/-- `mrcp_sig_message_t`: the signaling part of an application
message. -/
structure SigMessage where
  message_type : SigMessageType
  status : SigStatusCode
deriving DecidableEq, Repr

/-- `mrcp_app_message_t`: an asynchronous notification delivered by the
stack.  `control_message` is a pointer in C, hence an `Option`. -/
structure AppMessage where
  message_type : AppMessageType
  sig_message : SigMessage
  control_message : Option MrcpMessage
deriving DecidableEq, Repr

/-! ## Response classifiers (`sig_response_check`, `mrcp_response_check`,
`mrcp_event_get`) -/

/-- `sig_response_check`: the argument is the (possibly NULL) message
drained from the mailbox. -/
def sig_response_check (app_message : Option AppMessage) : Bool :=
  match app_message with
  | none => false
  | some m =>
    if m.message_type ≠ AppMessageType.signaling then
      false
    else
      m.sig_message.status = SigStatusCode.success

/-- `mrcp_response_check`. -/
def mrcp_response_check (app_message : Option AppMessage)
    (state : MrcpRequestState) : Bool :=
  let mrcp_message : Option MrcpMessage :=
    match app_message with
    | some m =>
      if m.message_type = AppMessageType.control then m.control_message
      else none
    | none => none
  match mrcp_message with
  | none => false
  | some msg =>
    if msg.start_line.message_type ≠ MrcpMessageType.response then
      false
    else
      msg.start_line.request_state = state

/-- `mrcp_event_get`. -/
def mrcp_event_get (app_message : Option AppMessage) : Option MrcpMessage :=
  let mrcp_message : Option MrcpMessage :=
    match app_message with
    | some m =>
      if m.message_type = AppMessageType.control then m.control_message
      else none
    | none => none
  match mrcp_message with
  | none => none
  | some msg =>
    if msg.start_line.message_type ≠ MrcpMessageType.event then
      none
    else
      some msg

/-- The result-event acceptance step of the wait loop in
`asr_session_run` (step 5), with the method identifier as a parameter:
the loop keeps the message obtained by `mrcp_event_get` and exits
exactly when the message exists and its `method_id` equals the given
identifier (the source instantiates the identifier with
`RECOGNIZER_RECOGNITION_COMPLETE` in its `while` condition). -/
def mrcp_event_get_matching (app_message : Option AppMessage)
    (method_id : Nat) : Option MrcpMessage :=
  match mrcp_event_get app_message with
  | none => none
  | some msg =>
    if msg.start_line.method_id ≠ method_id then none
    else some msg

/-! ## Message builders (`define_grammar_message_create`,
`recognize_message_create`) -/

/-- Environment of `mrcp_application_message_create` for a session:
whether creation succeeds, and the MRCP version the created message's
start line carries (fixed by the session's negotiated protocol). -/
structure BuildEnv where
  create_ok : Bool
  version : Nat
deriving DecidableEq, Repr

/-- `mrcp_application_message_create` (external collaborator): a fresh
request message for the given method, with no header fields assigned
and an empty body, or `none` if creation fails. -/
def mrcp_application_message_create (env : BuildEnv) (method_id : Nat) :
    Option MrcpMessage :=
  if env.create_ok then
    some
      { start_line :=
          { version := env.version
            message_type := MrcpMessageType.request
            request_state := MrcpRequestState.pending
            method_id := method_id }
        generic_header := { content_type := none, content_id := none }
        recog_header :=
          { cancel_if_queue := none
            no_input_timeout := none
            recognition_timeout := none
            start_input_timers := none
            confidence_threshold := none }
        generic_properties := []
        resource_properties := []
        body := "" }
  else
    none

/-- `define_grammar_message_create`.  `grammar` is the contents of the
session's grammar file (`none` when the file handle is NULL); the body
is the result of one `fread` of at most 1024 bytes. -/
def define_grammar_message_create (env : BuildEnv)
    (grammar : Option String) : Option MrcpMessage :=
  match mrcp_application_message_create env RECOGNIZER_DEFINE_GRAMMAR with
  | none => none
  | some m0 =>
    -- generic header prepare (pool allocation, modelled as succeeding)
    let m1 :=
      if m0.start_line.version = MRCP_VERSION_2 then
        { m0 with generic_header :=
            { m0.generic_header with
                content_type := some "application/srgs+xml" } }
      else
        { m0 with generic_header :=
            { m0.generic_header with
                content_type := some "application/grammar+xml" } }
    let m2 :=
      { m1 with
          generic_properties :=
            m1.generic_properties ++ [GENERIC_HEADER_CONTENT_TYPE] }
    let m3 :=
      { m2 with generic_header :=
          { m2.generic_header with content_id := some "demo-grammar" } }
    let m4 :=
      { m3 with
          generic_properties :=
            m3.generic_properties ++ [GENERIC_HEADER_CONTENT_ID] }
    -- set message body from the grammar file
    match grammar with
    | some text => some { m4 with body := text.take 1024 }
    | none => some m4

/-- `recognize_message_create`. -/
def recognize_message_create (env : BuildEnv) : Option MrcpMessage :=
  match mrcp_application_message_create env RECOGNIZER_RECOGNIZE with
  | none => none
  | some m0 =>
    -- generic header prepare (pool allocation, modelled as succeeding)
    let m1 :=
      { m0 with
          generic_header :=
            { m0.generic_header with content_type := some "text/uri-list" }
          generic_properties :=
            m0.generic_properties ++ [GENERIC_HEADER_CONTENT_TYPE]
          body := "session:demo-grammar" }
    -- recognizer header prepare (pool allocation, modelled as succeeding)
    let m2 :=
      if m1.start_line.version = MRCP_VERSION_2 then
        { m1 with
            recog_header :=
              { m1.recog_header with cancel_if_queue := some false }
            resource_properties :=
              m1.resource_properties ++ [RECOGNIZER_HEADER_CANCEL_IF_QUEUE] }
      else
        m1
    some
      { m2 with
          recog_header :=
            { m2.recog_header with
                no_input_timeout := some 5000
                recognition_timeout := some 10000
                start_input_timers := some true
                confidence_threshold := some (87 / 100 : ℚ) }
          resource_properties :=
            m2.resource_properties ++
              [RECOGNIZER_HEADER_NO_INPUT_TIMEOUT,
               RECOGNIZER_HEADER_RECOGNITION_TIMEOUT,
               RECOGNIZER_HEADER_START_INPUT_TIMERS,
               RECOGNIZER_HEADER_CONFIDENCE_THRESHOLD] }

/-! ## Audio stream read callback (`asr_stream_read`) -/

/-- The part of the session state `asr_stream_read` touches: the
streaming flag and the audio input file, modelled by its number of
remaining unread bytes (`none` when the file handle is NULL). -/
structure StreamState where
  streaming : Bool
  audio_in : Option Nat
deriving DecidableEq, Repr

/-- An audio frame: the requested codec-frame size and the
`MEDIA_FRAME_TYPE_AUDIO` bit of `frame->type`. -/
structure Frame where
  size : Nat
  has_audio : Bool
deriving DecidableEq, Repr

/-- `asr_stream_read`: one invocation of the MPF read callback.
`fread` of `size` bytes returns `min size remaining` bytes and advances
the file by that amount. -/
def asr_stream_read (s : StreamState) (frame : Frame) :
    StreamState × Frame :=
  if s.streaming then
    match s.audio_in with
    | some remaining =>
      if min frame.size remaining = frame.size then
        -- normal read
        ({ s with audio_in := some (remaining - frame.size) },
         { frame with has_audio := true })
      else
        -- file is over
        ({ streaming := false,
           audio_in := some (remaining - min frame.size remaining) },
         frame)
    | none => (s, frame)
  else
    (s, frame)

/-- A sequence of invocations of `asr_stream_read`, returning the final
state and the frames as the callback left them. -/
def asr_stream_read_calls (s : StreamState) (frames : List Frame) :
    StreamState × List Frame :=
  match frames with
  | [] => (s, [])
  | f :: fs =>
    let (s1, f1) := asr_stream_read s f
    let (s2, fs1) := asr_stream_read_calls s1 fs
    (s2, f1 :: fs1)

/-! ## Trace model of the session state machine

The worker thread (`asr_session_run`) is sequential; notifications are
delivered by `app_message_handler`, which runs in the stack's dispatch
context and must acquire the session mutex to store into the mailbox.
A delivery can therefore be interposed only while the worker is blocked
in a wait (which releases the mutex) or between the worker's locked
sections.  The environment records, for each wait, the message (if any)
delivered while the worker is blocked there, and, for each point where
the mutex is free, an optional interposed delivery. -/

/-- Events recorded by the instrumented model.  `waitBegin step mb`
records the mailbox contents `mb` at the moment the worker's wait at
`step` begins (1 = channel add, 2 = define grammar, 3 = recognize,
4 = a result-loop iteration, 5 = termination).  `mailboxAccess w h` and
`streamingAccess w h` record an access (write if `w`) to the mailbox or
the streaming flag while the mutex-held status is `h`. -/
inductive Ev where
  | waitBegin (step : Nat) (mb : Option AppMessage)
  | mailboxAccess (write : Bool) (held : Bool)
  | streamingAccess (write : Bool) (held : Bool)
  | channelAddRequested
  | messageSent (method_id : Nat)
  | terminateRequested
  | timeoutExit
  | resultParsed
  | sessionReleased
  | threadSpawned
deriving DecidableEq, Repr

/-- `app_message_handler`: invoked by the stack with a produced message.
Signaling responses and all control messages are stored into the
mailbox under the session mutex (then the condition variable is
signalled); other messages are ignored.  Returns the new mailbox and
the handler's trace. -/
def app_message_handler (msg : AppMessage) (mailbox : Option AppMessage) :
    Option AppMessage × List Ev :=
  if (msg.message_type = AppMessageType.signaling ∧
        msg.sig_message.message_type = SigMessageType.response) ∨
      msg.message_type = AppMessageType.control then
    (some msg, [Ev.mailboxAccess true true])
  else
    (mailbox, [])

/-- An optional delivery interposed while the worker does not hold the
mutex. -/
def deliver_opt (d : Option AppMessage) (mailbox : Option AppMessage) :
    Option AppMessage × List Ev :=
  match d with
  | none => (mailbox, [])
  | some msg => app_message_handler msg mailbox

/-- One round of the result-event wait loop: `gap` is a delivery
interposed before the worker re-acquires the mutex; `wake` is the
delivery that occurs while the worker is blocked in the timed wait
(`none`: the 60 s timed wait elapses with no signal). -/
structure LoopRound where
  gap : Option AppMessage
  wake : Option AppMessage
deriving DecidableEq, Repr

/-- Environment of `asr_session_destroy` with `terminate == TRUE`:
`gap` is a delivery interposed before the lock, `terminate_ok` the
result of `mrcp_application_session_terminate`, and `wake` the message
delivered while the worker is blocked in the termination wait. -/
structure TermEnv where
  gap : Option AppMessage
  terminate_ok : Bool
  wake : AppMessage
deriving DecidableEq, Repr

/-- Environment of one run of `asr_session_run`: the session's MRCP
version and grammar file contents, the outcome of each fallible stack
call, the message delivered during each indefinite wait (`wake1..3`
for steps 1-3), the deliveries interposed while the mutex is free
(`gap2`, `gap3`), the result-loop schedule (after the listed rounds the
timed wait elapses), and the termination-phase environment. -/
structure RunEnv where
  version : Nat
  grammar : Option String
  channel_add_ok : Bool
  wake1 : AppMessage
  gap2 : Option AppMessage
  dg_create_ok : Bool
  dg_send_ok : Bool
  wake2 : AppMessage
  gap3 : Option AppMessage
  rec_create_ok : Bool
  rec_send_ok : Bool
  wake3 : AppMessage
  rounds : List LoopRound
  term : TermEnv
deriving Repr

/-- `asr_session_destroy`: when `terminate` is set, lock the mutex,
send the terminate request and, if it was issued, block for its
response (the mailbox is not read); then unlock and release the file
handles, the synchronization primitives and the session resource. -/
def asr_session_destroy (terminate : Bool) (t : TermEnv)
    (mailbox : Option AppMessage) : List Ev :=
  if terminate then
    let d := deliver_opt t.gap mailbox
    -- lock
    if t.terminate_ok then
      let h := app_message_handler t.wake d.1
      d.2 ++ [Ev.terminateRequested, Ev.waitBegin 5 d.1] ++ h.2 ++
        [Ev.sessionReleased]
    else
      -- unlock, then release resources
      d.2 ++ [Ev.sessionReleased]
  else
    [Ev.sessionReleased]

/-- Blocking on the condition variable at `step` and, after the wake,
draining the mailbox (`app_message = asr_session->app_message;
asr_session->app_message = NULL;`), all under the mutex.  Returns the
drained local `app_message`, the new mailbox (always `NULL`), and the
trace. -/
def wait_and_drain (wake : AppMessage) (step : Nat)
    (mailbox : Option AppMessage) :
    Option AppMessage × Option AppMessage × List Ev :=
  let h := app_message_handler wake mailbox
  (h.1, none,
    [Ev.waitBegin step mailbox] ++ h.2 ++
      [Ev.mailboxAccess false true, Ev.mailboxAccess true true])

/-- Step 5 of `asr_session_run`: the do/while wait loop for
START-OF-INPUT / RECOGNITION-COMPLETE events.  Each iteration locks the
mutex, resets the local `app_message`, blocks in the 60 s timed wait
and, on wake, drains the mailbox, unlocks and classifies; the loop
repeats while no event was obtained or its method is not
RECOGNITION-COMPLETE.  Returns the retained `mrcp_message`, the final
mailbox, and the trace. -/
def result_wait_loop (rounds : List LoopRound)
    (mailbox : Option AppMessage) :
    Option MrcpMessage × Option AppMessage × List Ev :=
  match rounds with
  | [] =>
    -- no further delivery: the timed wait elapses
    (none, mailbox, [Ev.waitBegin 4 mailbox, Ev.timeoutExit])
  | r :: rest =>
    let d := deliver_opt r.gap mailbox
    -- lock; app_message = NULL (the local variable)
    match r.wake with
    | none =>
      -- apr_thread_cond_timedwait returned a non-success status:
      -- mrcp_message = NULL, unlock, break
      (none, d.1, d.2 ++ [Ev.waitBegin 4 d.1, Ev.timeoutExit])
    | some w =>
      let h := app_message_handler w d.1
      -- the worker wakes and drains the mailbox, then unlocks
      let app_message := h.1
      let evd := [Ev.mailboxAccess false true, Ev.mailboxAccess true true]
      let mrcp_message := mrcp_event_get app_message
      let looping : Bool :=
        match mrcp_message with
        | none => true
        | some msg =>
          msg.start_line.method_id ≠ RECOGNIZER_RECOGNITION_COMPLETE
      if looping then
        let rec1 := result_wait_loop rest none
        (rec1.1, rec1.2.1,
          d.2 ++ [Ev.waitBegin 4 d.1] ++ h.2 ++ evd ++ rec1.2.2)
      else
        (mrcp_message, none, d.2 ++ [Ev.waitBegin 4 d.1] ++ h.2 ++ evd)

/-- Result of one run of the state machine: the `mrcp_message` retained
when the result loop exited (the input of the result-extraction step),
and the trace of the run. -/
structure RunResult where
  result_message : Option MrcpMessage
  trace : List Ev
deriving Repr

/-- `asr_session_run`: the session state machine.  The mailbox was
initialised to NULL by `asr_session_create`; the mutex and condition
variable are created first.  Steps: (1) add channel and wait for the
signaling response; (2) send DEFINE-GRAMMAR and wait for a COMPLETE
response; (3) send RECOGNIZE and wait for an IN-PROGRESS response;
(4) set the streaming flag (the mutex is not held there); (5) the
result-event wait loop; (6) parse the result if one was retained;
(7) terminate and destroy the session.  Any failed check jumps
directly to the destroy step. -/
def asr_session_run (env : RunEnv) : RunResult :=
  let mailbox : Option AppMessage := none
  -- 1. Send add channel request and wait for the response
  -- lock; app_message = NULL (the local variable)
  let s1 :=
    if env.channel_add_ok then
      let w := wait_and_drain env.wake1 1 mailbox
      (w.1, w.2.1, [Ev.channelAddRequested] ++ w.2.2)
    else
      ((none : Option AppMessage), mailbox, ([] : List Ev))
  -- unlock
  if sig_response_check s1.1 = false then
    { result_message := none
      trace := s1.2.2 ++ asr_session_destroy true env.term s1.2.1 }
  else
    -- 2. Send DEFINE-GRAMMAR request and wait for the response
    let g2 := deliver_opt env.gap2 s1.2.1
    -- lock; app_message = NULL
    let s2 :=
      match define_grammar_message_create
          { create_ok := env.dg_create_ok, version := env.version }
          env.grammar with
      | some _ =>
        if env.dg_send_ok then
          let w := wait_and_drain env.wake2 2 g2.1
          (w.1, w.2.1, [Ev.messageSent RECOGNIZER_DEFINE_GRAMMAR] ++ w.2.2)
        else
          ((none : Option AppMessage), g2.1, ([] : List Ev))
      | none => ((none : Option AppMessage), g2.1, ([] : List Ev))
    -- unlock
    if mrcp_response_check s2.1 MrcpRequestState.complete = false then
      { result_message := none
        trace := s1.2.2 ++ g2.2 ++ s2.2.2 ++
          asr_session_destroy true env.term s2.2.1 }
    else
      -- 3. Send RECOGNIZE request and wait for the response
      let g3 := deliver_opt env.gap3 s2.2.1
      -- lock; app_message = NULL
      let s3 :=
        match recognize_message_create
            { create_ok := env.rec_create_ok, version := env.version } with
        | some _ =>
          if env.rec_send_ok then
            let w := wait_and_drain env.wake3 3 g3.1
            (w.1, w.2.1, [Ev.messageSent RECOGNIZER_RECOGNIZE] ++ w.2.2)
          else
            ((none : Option AppMessage), g3.1, ([] : List Ev))
        | none => ((none : Option AppMessage), g3.1, ([] : List Ev))
      -- unlock
      if mrcp_response_check s3.1 MrcpRequestState.inprogress = false then
        { result_message := none
          trace := s1.2.2 ++ g2.2 ++ s2.2.2 ++ g3.2 ++ s3.2.2 ++
            asr_session_destroy true env.term s3.2.1 }
      else
        -- 4. Start streaming (the mutex is not held here)
        let ev4 := [Ev.streamingAccess true false]
        -- 5. Wait for events START-OF-INPUT / RECOGNITION-COMPLETE
        let L := result_wait_loop env.rounds s3.2.1
        -- 6. Get results
        let ev6 :=
          match L.1 with
          | some _ => [Ev.resultParsed]
          | none => ([] : List Ev)
        -- 7. Send terminate session request and destroy the session
        { result_message := L.1
          trace := s1.2.2 ++ g2.2 ++ s2.2.2 ++ g3.2 ++ s3.2.2 ++ ev4 ++
            L.2.2 ++ ev6 ++ asr_session_destroy true env.term L.2.1 }

/-- Environment of `asr_session_launch`: whether session/channel
creation succeeds, whether the audio input and grammar files open,
whether the worker thread is created, and the environment of the
spawned run. -/
structure LaunchEnv where
  session_create_ok : Bool
  input_file_ok : Bool
  grammar_file_ok : Bool
  thread_create_ok : Bool
  run_env : RunEnv
deriving Repr

/-- `asr_session_launch`: create the session, open the audio input and
grammar files (in that order, short-circuiting), then spawn the worker
thread.  On any failure the partially constructed session is destroyed
with `terminate == FALSE` and the launch reports failure.  The returned
trace includes the spawned worker's trace on success. -/
def asr_session_launch (env : LaunchEnv) : Bool × List Ev :=
  if env.session_create_ok = false then
    (false, [])
  else if (env.input_file_ok && env.grammar_file_ok) = false then
    (false, asr_session_destroy false env.run_env.term none)
  else if env.thread_create_ok = false then
    (false, asr_session_destroy false env.run_env.term none)
  else
    (true, [Ev.threadSpawned] ++ (asr_session_run env.run_env).trace)

/-! ## Concrete notifications used as test inputs -/

/-- A control message with the given start-line classification and no
header fields or body. -/
def mk_mrcp_message (message_type : MrcpMessageType)
    (request_state : MrcpRequestState) (method_id : Nat) : MrcpMessage :=
  { start_line :=
      { version := 2
        message_type := message_type
        request_state := request_state
        method_id := method_id }
    generic_header := { content_type := none, content_id := none }
    recog_header :=
      { cancel_if_queue := none
        no_input_timeout := none
        recognition_timeout := none
        start_input_timers := none
        confidence_threshold := none }
    generic_properties := []
    resource_properties := []
    body := "" }

/-- A successful signaling response(e.g. to channel add or terminate). -/
def sig_response_success : AppMessage :=
  { message_type := AppMessageType.signaling
    sig_message :=
      { message_type := SigMessageType.response
        status := SigStatusCode.success }
    control_message := none }

/-- A control response in the COMPLETE state. -/
def ctl_response_complete : AppMessage :=
  { message_type := AppMessageType.control
    sig_message :=
      { message_type := SigMessageType.request
        status := SigStatusCode.success }
    control_message :=
      some (mk_mrcp_message MrcpMessageType.response MrcpRequestState.complete
        RECOGNIZER_DEFINE_GRAMMAR) }

/-- A control response in the IN-PROGRESS state. -/
def ctl_response_inprogress : AppMessage :=
  { message_type := AppMessageType.control
    sig_message :=
      { message_type := SigMessageType.request
        status := SigStatusCode.success }
    control_message :=
      some (mk_mrcp_message MrcpMessageType.response
        MrcpRequestState.inprogress RECOGNIZER_RECOGNIZE) }

/-- The START-OF-INPUT recognizer event. -/
def start_of_input_event : AppMessage :=
  { message_type := AppMessageType.control
    sig_message :=
      { message_type := SigMessageType.request
        status := SigStatusCode.success }
    control_message :=
      some (mk_mrcp_message MrcpMessageType.event MrcpRequestState.inprogress
        RECOGNIZER_START_OF_INPUT) }

/-- The RECOGNITION-COMPLETE recognizer event. -/
def recognition_complete_event : AppMessage :=
  { message_type := AppMessageType.control
    sig_message :=
      { message_type := SigMessageType.request
        status := SigStatusCode.success }
    control_message :=
      some (mk_mrcp_message MrcpMessageType.event MrcpRequestState.complete
        RECOGNIZER_RECOGNITION_COMPLETE) }

/-- A termination phase in which the terminate request is issued and its
response delivered. -/
def term_env_ok : TermEnv :=
  { gap := none, terminate_ok := true, wake := sig_response_success }

/-- An environment for a fully successful run: every stack call
succeeds, every response is the expected one, and the result loop sees
START-OF-INPUT followed by RECOGNITION-COMPLETE. -/
def happy_env : RunEnv :=
  { version := 2
    grammar := some "grammar-content"
    channel_add_ok := true
    wake1 := sig_response_success
    gap2 := none
    dg_create_ok := true
    dg_send_ok := true
    wake2 := ctl_response_complete
    gap3 := none
    rec_create_ok := true
    rec_send_ok := true
    wake3 := ctl_response_inprogress
    rounds :=
      [{ gap := none, wake := some start_of_input_event },
       { gap := none, wake := some recognition_complete_event }]
    term := term_env_ok }

/-! ## Trace properties -/

/-- The event is not a wait that begins with an occupied mailbox. -/
def wb_ok (e : Ev) : Bool :=
  match e with
  | Ev.waitBegin _ (some _) => false
  | _ => true

/-- Every wait recorded in the trace begins with an empty mailbox. -/
def waits_begin_empty (t : List Ev) : Bool :=
  t.all wb_ok

/-- The event is not a mailbox access performed without the mutex. -/
def mailbox_access_ok (e : Ev) : Bool :=
  match e with
  | Ev.mailboxAccess _ held => held
  | _ => true

/-- The event is not a mailbox or streaming-flag access performed
without the mutex. -/
def shared_access_ok (e : Ev) : Bool :=
  match e with
  | Ev.mailboxAccess _ held => held
  | Ev.streamingAccess _ held => held
  | _ => true

/-- Every mailbox access in the trace happens under the mutex. -/
def mailbox_accesses_locked (t : List Ev) : Bool :=
  t.all mailbox_access_ok

/-- Every mailbox and streaming-flag access in the trace happens under
the mutex. -/
def shared_accesses_locked (t : List Ev) : Bool :=
  t.all shared_access_ok

/-- The event is not the result-parse step. -/
def not_parse (e : Ev) : Bool :=
  match e with
  | Ev.resultParsed => false
  | _ => true

/-- The event is not the issuing of a protocol request. -/
def not_request (e : Ev) : Bool :=
  match e with
  | Ev.channelAddRequested => false
  | Ev.messageSent _ => false
  | Ev.terminateRequested => false
  | _ => true

/-- The event belongs to the shared pre-RECOGNIZE portion of an aborted
run: it is not the sending of RECOGNIZE, not a streaming-flag access,
not the result-parse step and not the timeout exit. -/
def pre_recognize (e : Ev) : Bool :=
  match e with
  | Ev.messageSent m => m = RECOGNIZER_DEFINE_GRAMMAR
  | Ev.streamingAccess _ _ => false
  | Ev.resultParsed => false
  | Ev.timeoutExit => false
  | _ => true

/-- The notification, as classified by the wait loop of
`asr_session_run`, is a RECOGNITION-COMPLETE event. -/
def is_recognition_complete (am : Option AppMessage) : Bool :=
  (mrcp_event_get_matching am RECOGNIZER_RECOGNITION_COMPLETE).isSome

/-! ## Further concrete test inputs -/

/-- A signaling message that is an event (not a response) whose status
field holds the success code. -/
def sig_event_success : AppMessage :=
  { message_type := AppMessageType.signaling
    sig_message :=
      { message_type := SigMessageType.event
        status := SigStatusCode.success }
    control_message := none }

/-- A control response in the PENDING state (not the state any step of
the state machine expects). -/
def ctl_response_pending : AppMessage :=
  { message_type := AppMessageType.control
    sig_message :=
      { message_type := SigMessageType.request
        status := SigStatusCode.success }
    control_message :=
      some (mk_mrcp_message MrcpMessageType.response MrcpRequestState.pending
        RECOGNIZER_DEFINE_GRAMMAR) }

/-- A run in which START-OF-INPUT is delivered after the worker released
the mutex following the RECOGNIZE response but before it re-acquired it
for the first result-loop wait; the timed wait then elapses. -/
def c1_cex_env : RunEnv :=
  { happy_env with
      rounds := [{ gap := some start_of_input_event, wake := none }] }

/-- A run whose DEFINE-GRAMMAR request cannot be sent, with the
termination phase left as a parameter. -/
def dg_send_fail_env (t : TermEnv) : RunEnv :=
  { happy_env with dg_send_ok := false, term := t }

/-- A run whose DEFINE-GRAMMAR response fails the COMPLETE-state check,
with the termination phase left as a parameter. -/
def dg_fail_resp_env (t : TermEnv) : RunEnv :=
  { happy_env with wake2 := ctl_response_pending, term := t }

/-- The RECOGNIZE request built for a version-2 session, as
`recognize_message_create` constructs it. -/
def recognize_message_v2 : MrcpMessage :=
  { start_line :=
      { version := 2
        message_type := MrcpMessageType.request
        request_state := MrcpRequestState.pending
        method_id := RECOGNIZER_RECOGNIZE }
    generic_header :=
      { content_type := some "text/uri-list", content_id := none }
    recog_header :=
      { cancel_if_queue := some false
        no_input_timeout := some 5000
        recognition_timeout := some 10000
        start_input_timers := some true
        confidence_threshold := some (87 / 100 : ℚ) }
    generic_properties := [GENERIC_HEADER_CONTENT_TYPE]
    resource_properties :=
      [RECOGNIZER_HEADER_CANCEL_IF_QUEUE,
       RECOGNIZER_HEADER_NO_INPUT_TIMEOUT,
       RECOGNIZER_HEADER_RECOGNITION_TIMEOUT,
       RECOGNIZER_HEADER_START_INPUT_TIMERS,
       RECOGNIZER_HEADER_CONFIDENCE_THRESHOLD]
    body := "session:demo-grammar" }

/-- The DEFINE-GRAMMAR request built for a version-1 session with no
grammar file, as `define_grammar_message_create` constructs it. -/
def define_grammar_message_v1 : MrcpMessage :=
  { start_line :=
      { version := 1
        message_type := MrcpMessageType.request
        request_state := MrcpRequestState.pending
        method_id := RECOGNIZER_DEFINE_GRAMMAR }
    generic_header :=
      { content_type := some "application/grammar+xml"
        content_id := some "demo-grammar" }
    recog_header :=
      { cancel_if_queue := none
        no_input_timeout := none
        recognition_timeout := none
        start_input_timers := none
        confidence_threshold := none }
    generic_properties :=
      [GENERIC_HEADER_CONTENT_TYPE, GENERIC_HEADER_CONTENT_ID]
    resource_properties := []
    body := "" }

/-! ## Theorems -/

/-- C3 (counterexample): `sig_response_check` does not establish that
the notification is a signaling *response*: on a signaling message of
event kind whose status field holds the success code it returns true,
so the claimed equivalence fails at this input. -/
theorem C3_sig_response_check_counterexample :
    ¬ (sig_response_check (some sig_event_success) = true ↔
        (sig_event_success.message_type = AppMessageType.signaling ∧
         sig_event_success.sig_message.message_type = SigMessageType.response ∧
         sig_event_success.sig_message.status = SigStatusCode.success)) := by
  decide

/-- C3 (amended): `sig_response_check` returns true iff the
notification is present, is a signaling-type message, and its status
indicates success; the signaling message kind (response vs event) is
not examined by the predicate. -/
theorem C3_sig_response_check_amended (am : Option AppMessage) :
    sig_response_check am = true ↔
      ∃ m, am = some m ∧ m.message_type = AppMessageType.signaling ∧
        m.sig_message.status = SigStatusCode.success := by
  cases am with
  | none => simp [sig_response_check]
  | some m =>
    rcases m with ⟨mt, ⟨smt, st⟩, cm⟩
    cases mt <;> cases st <;> simp [sig_response_check]

/-- C4: the event-extraction step of the wait loop returns the
contained control message iff the notification is a control message
holding an event whose method equals the given identifier, and returns
empty otherwise. -/
theorem C4_event_extraction (am : Option AppMessage) (method_id : Nat)
    (msg : MrcpMessage) :
    mrcp_event_get_matching am method_id = some msg ↔
      ∃ a, am = some a ∧ a.message_type = AppMessageType.control ∧
        a.control_message = some msg ∧
        msg.start_line.message_type = MrcpMessageType.event ∧
        msg.start_line.method_id = method_id := by
  cases am with
  | none => simp [mrcp_event_get_matching, mrcp_event_get]
  | some a =>
    rcases a with ⟨mt, sg, cm⟩
    cases mt with
    | signaling => simp [mrcp_event_get_matching, mrcp_event_get]
    | control =>
      cases cm with
      | none => simp [mrcp_event_get_matching, mrcp_event_get]
      | some c =>
        by_cases he : c.start_line.message_type = MrcpMessageType.event
        · by_cases hm : c.start_line.method_id = method_id
          · simp [mrcp_event_get_matching, mrcp_event_get, he, hm]
            rintro rfl
            exact ⟨he, hm⟩
          · simp [mrcp_event_get_matching, mrcp_event_get, he, hm]
            rintro rfl h1
            exact hm
        · simp [mrcp_event_get_matching, mrcp_event_get, he]
          rintro rfl h1
          exact absurd h1 he

/-- C5: a successfully created RECOGNIZE request has body
`session:demo-grammar`, content type `text/uri-list`, no-input-timeout
5000, recognition-timeout 10000, start-input-timers enabled and
confidence-threshold 0.87, and carries cancel-if-queue = disabled
exactly when the protocol version is 2. -/
theorem C5_recognize_request_fields (env : BuildEnv) (m : MrcpMessage)
    (h : recognize_message_create env = some m) :
    m.body = "session:demo-grammar" ∧
    m.generic_header.content_type = some "text/uri-list" ∧
    m.recog_header.no_input_timeout = some 5000 ∧
    m.recog_header.recognition_timeout = some 10000 ∧
    m.recog_header.start_input_timers = some true ∧
    m.recog_header.confidence_threshold = some (87 / 100 : ℚ) ∧
    ((m.recog_header.cancel_if_queue = some false ∧
        RECOGNIZER_HEADER_CANCEL_IF_QUEUE ∈ m.resource_properties) ↔
      m.start_line.version = MRCP_VERSION_2) := by
  unfold recognize_message_create mrcp_application_message_create at h
  by_cases hc : env.create_ok
  · simp only [hc, if_true] at h
    by_cases hv : env.version = MRCP_VERSION_2
    · simp only [hv, if_pos] at h
      injection h with h
      subst h
      simp [hv, MRCP_VERSION_2, RECOGNIZER_HEADER_CANCEL_IF_QUEUE,
        RECOGNIZER_HEADER_NO_INPUT_TIMEOUT,
        RECOGNIZER_HEADER_RECOGNITION_TIMEOUT,
        RECOGNIZER_HEADER_START_INPUT_TIMERS,
        RECOGNIZER_HEADER_CONFIDENCE_THRESHOLD]
    · simp only [hv, if_neg, if_false] at h
      injection h with h
      subst h
      simp [hv]
  · simp [hc] at h

/-- C5 witness: the RECOGNIZE request of a version-2 session. -/
theorem C5_recognize_request_fields_witness :
    recognize_message_v2.body = "session:demo-grammar" ∧
    recognize_message_v2.generic_header.content_type =
      some "text/uri-list" ∧
    recognize_message_v2.recog_header.no_input_timeout = some 5000 ∧
    recognize_message_v2.recog_header.recognition_timeout = some 10000 ∧
    recognize_message_v2.recog_header.start_input_timers = some true ∧
    recognize_message_v2.recog_header.confidence_threshold =
      some (87 / 100 : ℚ) ∧
    ((recognize_message_v2.recog_header.cancel_if_queue = some false ∧
        RECOGNIZER_HEADER_CANCEL_IF_QUEUE ∈
          recognize_message_v2.resource_properties) ↔
      recognize_message_v2.start_line.version = MRCP_VERSION_2) :=
  C5_recognize_request_fields { create_ok := true, version := 2 }
    recognize_message_v2 rfl

/-- C6: a successfully created DEFINE-GRAMMAR request has content type
`application/srgs+xml` when the message's protocol version is 2 and
`application/grammar+xml` otherwise, and content identifier
`demo-grammar`. -/
theorem C6_define_grammar_fields (env : BuildEnv)
    (grammar : Option String) (m : MrcpMessage)
    (h : define_grammar_message_create env grammar = some m) :
    m.generic_header.content_type =
      some (if m.start_line.version = MRCP_VERSION_2 then
          "application/srgs+xml"
        else
          "application/grammar+xml") ∧
    m.generic_header.content_id = some "demo-grammar" := by
  unfold define_grammar_message_create mrcp_application_message_create at h
  by_cases hc : env.create_ok
  · simp only [hc, if_true] at h
    by_cases hv : env.version = MRCP_VERSION_2
    · cases grammar with
      | none =>
        simp only [hv, if_pos] at h
        injection h with h
        subst h
        simp [hv]
      | some g =>
        simp only [hv, if_pos] at h
        injection h with h
        subst h
        simp [hv]
    · cases grammar with
      | none =>
        simp only [hv, if_neg, if_false] at h
        injection h with h
        subst h
        simp [hv]
      | some g =>
        simp only [hv, if_neg, if_false] at h
        injection h with h
        subst h
        simp [hv]
  · simp [hc] at h

/-- C6 witness: the DEFINE-GRAMMAR request of a version-1 session with
no grammar file open. -/
theorem C6_define_grammar_fields_witness :
    define_grammar_message_v1.generic_header.content_type =
      some (if define_grammar_message_v1.start_line.version =
          MRCP_VERSION_2 then
          "application/srgs+xml"
        else
          "application/grammar+xml") ∧
    define_grammar_message_v1.generic_header.content_id =
      some "demo-grammar" :=
  C6_define_grammar_fields { create_ok := true, version := 1 } none
    define_grammar_message_v1 rfl

/-- Once the streaming flag is off, one read call changes nothing. -/
theorem asr_stream_read_not_streaming (s : StreamState) (f : Frame)
    (h : s.streaming = false) : asr_stream_read s f = (s, f) := by
  unfold asr_stream_read
  simp [h]

/-- Once the streaming flag is off, any sequence of read calls changes
nothing. -/
theorem asr_stream_read_calls_not_streaming (s : StreamState)
    (fs : List Frame) (h : s.streaming = false) :
    asr_stream_read_calls s fs = (s, fs) := by
  induction fs with
  | nil => rfl
  | cons f fs ih =>
    unfold asr_stream_read_calls
    rw [asr_stream_read_not_streaming s f h]
    simp only [ih]

/-- C7: behaviour of the audio-frame read callback.  (i) With the
streaming flag off, the audio marker is left as it came in and the
state is unchanged.  (ii) With streaming on and the source holding at
least a full frame, the marker is raised.  (iii) With streaming on and
the source holding fewer bytes than the frame, the streaming flag is
cleared, the marker is not raised, and no subsequent call changes any
frame. -/
theorem C7_stream_read :
    (∀ s f, s.streaming = false →
      (asr_stream_read s f).2.has_audio = f.has_audio ∧
      (asr_stream_read s f).1 = s) ∧
    (∀ s f r, s.streaming = true → s.audio_in = some r → f.size ≤ r →
      (asr_stream_read s f).2.has_audio = true) ∧
    (∀ s f r, s.streaming = true → s.audio_in = some r → r < f.size →
      (asr_stream_read s f).1.streaming = false ∧
      (asr_stream_read s f).2.has_audio = f.has_audio ∧
      ∀ fs, (asr_stream_read_calls (asr_stream_read s f).1 fs).2 = fs) := by
  refine ⟨?_, ?_, ?_⟩
  · intro s f h
    rw [asr_stream_read_not_streaming s f h]
    exact ⟨rfl, rfl⟩
  · intro s f r hs ha hle
    unfold asr_stream_read
    simp [hs, ha, Nat.min_eq_left hle]
  · intro s f r hs ha hlt
    have hmin : min f.size r ≠ f.size := by
      rw [Nat.min_eq_right (Nat.le_of_lt hlt)]
      exact Nat.ne_of_lt hlt
    constructor
    · unfold asr_stream_read
      simp [hs, ha, hmin]
    constructor
    · unfold asr_stream_read
      simp [hs, ha, hmin]
    · intro fs
      have hst : (asr_stream_read s f).1.streaming = false := by
        unfold asr_stream_read
        simp [hs, ha, hmin]
      rw [asr_stream_read_calls_not_streaming _ fs hst]

/-- C7 witness: a frame read with streaming off, a full read from a
source with 4 bytes left, and a short read from a source with 1 byte
left followed by one further call. -/
theorem C7_stream_read_witness :
    ((asr_stream_read { streaming := false, audio_in := some 3 }
        { size := 2, has_audio := false }).2.has_audio = false ∧
     (asr_stream_read { streaming := false, audio_in := some 3 }
        { size := 2, has_audio := false }).1 =
       { streaming := false, audio_in := some 3 }) ∧
    (asr_stream_read { streaming := true, audio_in := some 4 }
        { size := 2, has_audio := false }).2.has_audio = true ∧
    ((asr_stream_read { streaming := true, audio_in := some 1 }
        { size := 2, has_audio := false }).1.streaming = false ∧
     (asr_stream_read { streaming := true, audio_in := some 1 }
        { size := 2, has_audio := false }).2.has_audio = false ∧
     (asr_stream_read_calls
        (asr_stream_read { streaming := true, audio_in := some 1 }
          { size := 2, has_audio := false }).1
        [{ size := 2, has_audio := false }]).2 =
       [{ size := 2, has_audio := false }]) := by
  refine ⟨C7_stream_read.1 _ _ rfl,
    C7_stream_read.2.1 _ _ 4 rfl rfl (by decide), ?_⟩
  have h := C7_stream_read.2.2 { streaming := true, audio_in := some 1 }
    { size := 2, has_audio := false } 1 rfl rfl (by decide)
  exact ⟨h.1, h.2.1, h.2.2 _⟩

/-- C9: when the session was created but the audio input or the grammar
file cannot be opened, the launch reports failure, the partially
constructed session is released (without a terminate exchange), no
protocol request is ever issued and no worker thread is spawned. -/
theorem C9_launch_file_failure (env : LaunchEnv)
    (hs : env.session_create_ok = true)
    (hf : env.input_file_ok = false ∨ env.grammar_file_ok = false) :
    (asr_session_launch env).1 = false ∧
    (asr_session_launch env).2 = [Ev.sessionReleased] ∧
    Ev.threadSpawned ∉ (asr_session_launch env).2 ∧
    (asr_session_launch env).2.all not_request = true := by
  have hio : (env.input_file_ok && env.grammar_file_ok) = false := by
    rcases hf with h | h <;> simp [h]
  unfold asr_session_launch
  rw [hs, hio]
  simp [asr_session_destroy, not_request]

/-- C9 witness: a launch whose grammar file fails to open. -/
theorem C9_launch_file_failure_witness :
    (asr_session_launch
        { session_create_ok := true, input_file_ok := true,
          grammar_file_ok := false, thread_create_ok := true,
          run_env := happy_env }).1 = false ∧
    (asr_session_launch
        { session_create_ok := true, input_file_ok := true,
          grammar_file_ok := false, thread_create_ok := true,
          run_env := happy_env }).2 = [Ev.sessionReleased] ∧
    Ev.threadSpawned ∉ (asr_session_launch
        { session_create_ok := true, input_file_ok := true,
          grammar_file_ok := false, thread_create_ok := true,
          run_env := happy_env }).2 ∧
    (asr_session_launch
        { session_create_ok := true, input_file_ok := true,
          grammar_file_ok := false, thread_create_ok := true,
          run_env := happy_env }).2.all not_request = true :=
  C9_launch_file_failure _ rfl (Or.inr rfl)

/-- C10: the absent notification fails every classifier — the
signaling check, the control-response check for every expected state,
and event extraction — and consequently a step whose DEFINE-GRAMMAR
request could not be sent (leaving the mailbox empty) aborts through
exactly the same termination routine, with the same termination trace,
as a step whose response failed the COMPLETE-state check; in both runs
nothing beyond the aborted step happens (no RECOGNIZE is sent, the
streaming flag is never touched, no result is parsed). -/
theorem C10_absent_notification_aborts :
    sig_response_check none = false ∧
    (∀ s, mrcp_response_check none s = false) ∧
    mrcp_event_get none = none ∧
    (∀ t : TermEnv,
      ∃ pA pB,
        (asr_session_run (dg_send_fail_env t)).trace =
          pA ++ asr_session_destroy true t none ∧
        (asr_session_run (dg_fail_resp_env t)).trace =
          pB ++ asr_session_destroy true t none ∧
        (pA ++ pB).all pre_recognize = true) := by
  refine ⟨rfl, fun s => rfl, rfl, fun t => ?_⟩
  refine ⟨[Ev.channelAddRequested, Ev.waitBegin 1 none,
      Ev.mailboxAccess true true, Ev.mailboxAccess false true,
      Ev.mailboxAccess true true],
    [Ev.channelAddRequested, Ev.waitBegin 1 none,
      Ev.mailboxAccess true true, Ev.mailboxAccess false true,
      Ev.mailboxAccess true true,
      Ev.messageSent RECOGNIZER_DEFINE_GRAMMAR, Ev.waitBegin 2 none,
      Ev.mailboxAccess true true, Ev.mailboxAccess false true,
      Ev.mailboxAccess true true],
    rfl, rfl, by decide⟩

/-- The handler's trace is one locked mailbox write, or empty when the
message is ignored. -/
theorem app_message_handler_trace (msg : AppMessage)
    (mb : Option AppMessage) :
    (app_message_handler msg mb).2 = [Ev.mailboxAccess true true] ∨
    (app_message_handler msg mb).2 = [] := by
  unfold app_message_handler
  split
  · exact Or.inl rfl
  · exact Or.inr rfl

/-- The handler either stores the message or leaves the mailbox. -/
theorem app_message_handler_fst (msg : AppMessage)
    (mb : Option AppMessage) :
    (app_message_handler msg mb).1 = some msg ∨
    (app_message_handler msg mb).1 = mb := by
  unfold app_message_handler
  split
  · exact Or.inl rfl
  · exact Or.inr rfl

/-- An interposed delivery has the same trace shape as the handler. -/
theorem deliver_opt_trace (d : Option AppMessage) (mb : Option AppMessage) :
    (deliver_opt d mb).2 = [Ev.mailboxAccess true true] ∨
    (deliver_opt d mb).2 = [] := by
  cases d with
  | none => exact Or.inr rfl
  | some m => exact app_message_handler_trace m mb

/-- An interposed delivery either stores its message or leaves the
mailbox. -/
theorem deliver_opt_fst (d : Option AppMessage) (mb : Option AppMessage) :
    (deliver_opt d mb).1 = d ∨ (deliver_opt d mb).1 = mb := by
  cases d with
  | none => exact Or.inr rfl
  | some m => exact app_message_handler_fst m mb

theorem waits_begin_empty_append (a b : List Ev) :
    waits_begin_empty (a ++ b) =
      (waits_begin_empty a && waits_begin_empty b) :=
  List.all_append

theorem mailbox_accesses_locked_append (a b : List Ev) :
    mailbox_accesses_locked (a ++ b) =
      (mailbox_accesses_locked a && mailbox_accesses_locked b) :=
  List.all_append

theorem waits_begin_empty_handler (msg : AppMessage)
    (mb : Option AppMessage) :
    waits_begin_empty (app_message_handler msg mb).2 = true := by
  rcases app_message_handler_trace msg mb with h | h <;> rw [h] <;> rfl

theorem waits_begin_empty_deliver (d : Option AppMessage)
    (mb : Option AppMessage) :
    waits_begin_empty (deliver_opt d mb).2 = true := by
  rcases deliver_opt_trace d mb with h | h <;> rw [h] <;> rfl

theorem mailbox_accesses_locked_handler (msg : AppMessage)
    (mb : Option AppMessage) :
    mailbox_accesses_locked (app_message_handler msg mb).2 = true := by
  rcases app_message_handler_trace msg mb with h | h <;> rw [h] <;> rfl

theorem mailbox_accesses_locked_deliver (d : Option AppMessage)
    (mb : Option AppMessage) :
    mailbox_accesses_locked (deliver_opt d mb).2 = true := by
  rcases deliver_opt_trace d mb with h | h <;> rw [h] <;> rfl

theorem mailbox_accesses_locked_wad (w : AppMessage) (s : Nat)
    (mb : Option AppMessage) :
    mailbox_accesses_locked (wait_and_drain w s mb).2.2 = true := by
  unfold wait_and_drain
  simp only [mailbox_accesses_locked_append]
  rcases app_message_handler_trace w mb with h | h <;> rw [h] <;> rfl


theorem mailbox_accesses_locked_nil : mailbox_accesses_locked [] = true :=
  rfl

theorem mailbox_accesses_locked_cons (e : Ev) (t : List Ev) :
    mailbox_accesses_locked (e :: t) =
      (mailbox_access_ok e && mailbox_accesses_locked t) :=
  List.all_cons

theorem waits_begin_empty_nil : waits_begin_empty [] = true :=
  rfl

theorem waits_begin_empty_cons (e : Ev) (t : List Ev) :
    waits_begin_empty (e :: t) = (wb_ok e && waits_begin_empty t) :=
  List.all_cons

/-- Every mailbox access in a result-loop trace is performed under the
mutex. -/
theorem mailbox_accesses_locked_loop (rounds : List LoopRound)
    (mb : Option AppMessage) :
    mailbox_accesses_locked (result_wait_loop rounds mb).2.2 = true := by
  induction rounds generalizing mb with
  | nil => rfl
  | cons r rest ih =>
    obtain ⟨g, wk⟩ := r
    cases wk with
    | none =>
      unfold result_wait_loop
      dsimp only
      simp only [mailbox_accesses_locked_append, mailbox_accesses_locked_cons,
        mailbox_accesses_locked_nil, mailbox_accesses_locked_deliver,
        mailbox_access_ok, Bool.and_true, Bool.true_and]
    | some w =>
      unfold result_wait_loop
      dsimp only
      split <;>
        simp only [mailbox_accesses_locked_append, mailbox_accesses_locked_cons,
          mailbox_accesses_locked_nil, mailbox_accesses_locked_deliver,
          mailbox_accesses_locked_handler, ih, mailbox_access_ok,
          Bool.and_true, Bool.true_and]

/-- With no interposed deliveries and an empty incoming mailbox, every
wait of the result loop begins with an empty mailbox and the loop
leaves the mailbox empty. -/
theorem waits_begin_empty_loop (rounds : List LoopRound)
    (hg : ∀ r ∈ rounds, r.gap = none) :
    (result_wait_loop rounds none).2.1 = none ∧
    waits_begin_empty (result_wait_loop rounds none).2.2 = true := by
  induction rounds with
  | nil => exact ⟨rfl, rfl⟩
  | cons r rest ih =>
    have hgr : r.gap = none := hg r (List.mem_cons_self r rest)
    have hrest := ih fun x hx => hg x (List.mem_cons_of_mem r hx)
    obtain ⟨g, wk⟩ := r
    simp only at hgr
    subst hgr
    cases wk with
    | none =>
      unfold result_wait_loop
      dsimp only [deliver_opt]
      exact ⟨rfl, rfl⟩
    | some w =>
      unfold result_wait_loop
      dsimp only [deliver_opt]
      split
      · refine ⟨hrest.1, ?_⟩
        simp only [waits_begin_empty_append, waits_begin_empty_cons,
          waits_begin_empty_nil, waits_begin_empty_handler, hrest.2,
          wb_ok, Bool.and_true, Bool.true_and]
      · refine ⟨rfl, ?_⟩
        simp only [waits_begin_empty_append, waits_begin_empty_cons,
          waits_begin_empty_nil, waits_begin_empty_handler,
          wb_ok, Bool.and_true, Bool.true_and]

/-- Every mailbox access in a teardown trace is performed under the
mutex. -/
theorem mailbox_accesses_locked_destroy (b : Bool) (t : TermEnv)
    (mb : Option AppMessage) :
    mailbox_accesses_locked (asr_session_destroy b t mb) = true := by
  unfold asr_session_destroy
  split
  · split <;>
      simp only [mailbox_accesses_locked_append, mailbox_accesses_locked_cons,
        mailbox_accesses_locked_nil, mailbox_accesses_locked_deliver,
        mailbox_accesses_locked_handler, mailbox_access_ok,
        Bool.and_true, Bool.true_and]
  · rfl

/-- With no interposed delivery before the lock and an empty incoming
mailbox, the termination wait begins with an empty mailbox. -/
theorem waits_begin_empty_destroy (b : Bool) (t : TermEnv)
    (hgt : t.gap = none) :
    waits_begin_empty (asr_session_destroy b t none) = true := by
  unfold asr_session_destroy
  rw [hgt]
  split
  · split <;>
      simp only [deliver_opt, waits_begin_empty_append,
        waits_begin_empty_cons, waits_begin_empty_nil,
        waits_begin_empty_handler, wb_ok, Bool.and_true, Bool.true_and]
  · rfl

/-- Teardown always releases the session resources. -/
theorem sessionReleased_mem_destroy (b : Bool) (t : TermEnv)
    (mb : Option AppMessage) :
    Ev.sessionReleased ∈ asr_session_destroy b t mb := by
  unfold asr_session_destroy
  split
  · split <;> simp
  · simp

/-- When the terminate call succeeds, teardown issues the terminate
request. -/
theorem terminateRequested_mem_destroy (t : TermEnv)
    (mb : Option AppMessage) (h : t.terminate_ok = true) :
    Ev.terminateRequested ∈ asr_session_destroy true t mb := by
  unfold asr_session_destroy
  simp [h]

theorem not_parse_handler (msg : AppMessage) (mb : Option AppMessage) :
    (app_message_handler msg mb).2.all not_parse = true := by
  rcases app_message_handler_trace msg mb with h | h <;> rw [h] <;> rfl

theorem not_parse_deliver (d : Option AppMessage) (mb : Option AppMessage) :
    (deliver_opt d mb).2.all not_parse = true := by
  rcases deliver_opt_trace d mb with h | h <;> rw [h] <;> rfl

/-- The result loop never parses a result. -/
theorem not_parse_loop (rounds : List LoopRound) (mb : Option AppMessage) :
    (result_wait_loop rounds mb).2.2.all not_parse = true := by
  induction rounds generalizing mb with
  | nil => rfl
  | cons r rest ih =>
    obtain ⟨g, wk⟩ := r
    cases wk with
    | none =>
      unfold result_wait_loop
      dsimp only
      simp only [List.all_append, List.all_cons, List.all_nil,
        not_parse_deliver, not_parse, Bool.and_true, Bool.true_and]
    | some w =>
      unfold result_wait_loop
      dsimp only
      split <;>
        simp only [List.all_append, List.all_cons, List.all_nil,
          not_parse_deliver, not_parse_handler, ih, not_parse,
          Bool.and_true, Bool.true_and]

/-- Teardown never parses a result. -/
theorem not_parse_destroy (b : Bool) (t : TermEnv)
    (mb : Option AppMessage) :
    (asr_session_destroy b t mb).all not_parse = true := by
  unfold asr_session_destroy
  split
  · split <;>
      simp only [List.all_append, List.all_cons, List.all_nil,
        not_parse_deliver, not_parse_handler, not_parse,
        Bool.and_true, Bool.true_and]
  · rfl

theorem not_mem_of_all_not_parse (t : List Ev)
    (h : t.all not_parse = true) : Ev.resultParsed ∉ t := by
  intro hm
  have := List.all_eq_true.mp h _ hm
  simp [not_parse] at this

/-- When no RECOGNITION-COMPLETE event is delivered during the result
loop (neither while blocked nor between iterations), the loop retains
no message and exits through the timeout branch. -/
theorem result_wait_loop_no_complete (rounds : List LoopRound)
    (h : ∀ r ∈ rounds, is_recognition_complete r.gap = false ∧
      is_recognition_complete r.wake = false) :
    (result_wait_loop rounds none).1 = none ∧
    Ev.timeoutExit ∈ (result_wait_loop rounds none).2.2 := by
  induction rounds with
  | nil => exact ⟨rfl, by simp [result_wait_loop]⟩
  | cons r rest ih =>
    obtain ⟨hg, hw⟩ := h r (List.mem_cons_self r rest)
    have hrest := ih fun x hx => h x (List.mem_cons_of_mem r hx)
    obtain ⟨g, wk⟩ := r
    simp only at hg hw
    cases wk with
    | none =>
      unfold result_wait_loop
      dsimp only
      exact ⟨rfl, by simp⟩
    | some w =>
      have hd : is_recognition_complete
          ((app_message_handler w (deliver_opt g none).1).1) = false := by
        rcases app_message_handler_fst w (deliver_opt g none).1
          with h1 | h1 <;> rw [h1]
        · exact hw
        · rcases deliver_opt_fst g none with h2 | h2 <;> rw [h2]
          · exact hg
          · rfl
      unfold result_wait_loop
      dsimp only
      split
      · refine ⟨hrest.1, ?_⟩
        simp [hrest.2]
      · exfalso
        rename_i hcond
        rcases hE : mrcp_event_get
            ((app_message_handler w (deliver_opt g none).1).1) with _ | msg
        · simp [hE] at hcond
        · simp [hE] at hcond
          unfold is_recognition_complete mrcp_event_get_matching at hd
          rw [hE] at hd
          simp [hcond] at hd

theorem waits_begin_empty_wad (w : AppMessage) (s : Nat) :
    waits_begin_empty (wait_and_drain w s none).2.2 = true := by
  unfold wait_and_drain
  simp only [waits_begin_empty_append, waits_begin_empty_cons,
    waits_begin_empty_nil, waits_begin_empty_handler, wb_ok,
    Bool.and_true, Bool.true_and]

theorem not_parse_wad (w : AppMessage) (s : Nat)
    (mb : Option AppMessage) :
    (wait_and_drain w s mb).2.2.all not_parse = true := by
  unfold wait_and_drain
  simp only [List.all_append, List.all_cons, List.all_nil,
    not_parse_handler, not_parse, Bool.and_true, Bool.true_and]

theorem define_grammar_message_create_some (v : Nat) (g : Option String) :
    ∃ m, define_grammar_message_create { create_ok := true, version := v }
      g = some m := by
  by_cases hv : v = MRCP_VERSION_2 <;> cases g <;>
    simp [define_grammar_message_create, mrcp_application_message_create, hv]

theorem recognize_message_create_some (v : Nat) :
    ∃ m, recognize_message_create { create_ok := true, version := v } =
      some m := by
  by_cases hv : v = MRCP_VERSION_2 <;>
    simp [recognize_message_create, mrcp_application_message_create, hv]

/-- C2 (amended): in every run, every inspection or mutation of the
mailbox — by the state-machine thread or by the notification handler —
happens while the session mutex is held. -/
theorem C2_mailbox_accesses_locked (env : RunEnv) :
    mailbox_accesses_locked (asr_session_run env).trace = true := by
  unfold asr_session_run
  dsimp only
  repeat' split
  all_goals
    simp only [mailbox_accesses_locked_append, mailbox_accesses_locked_cons,
      mailbox_accesses_locked_nil, mailbox_accesses_locked_deliver,
      mailbox_accesses_locked_handler, mailbox_accesses_locked_wad,
      mailbox_accesses_locked_loop, mailbox_accesses_locked_destroy,
      mailbox_access_ok, Bool.and_true, Bool.true_and]

/-- C1 (amended): provided every notification is delivered while the
state machine is blocked in a wait (no delivery is interposed while the
worker is between locked sections), every wait — the channel-add wait,
the define-grammar wait, the recognize wait, each result-loop
iteration and the termination wait — begins with an empty mailbox. -/
theorem C1_mailbox_empty_at_waits (env : RunEnv)
    (hg2 : env.gap2 = none) (hg3 : env.gap3 = none)
    (hgr : ∀ r ∈ env.rounds, r.gap = none)
    (hgt : env.term.gap = none) :
    waits_begin_empty (asr_session_run env).trace = true := by
  unfold asr_session_run
  dsimp only
  rw [hg2, hg3]
  repeat' split
  all_goals
    simp only [wait_and_drain, deliver_opt, waits_begin_empty_append,
      waits_begin_empty_cons, waits_begin_empty_nil,
      waits_begin_empty_handler,
      (waits_begin_empty_loop env.rounds hgr).1,
      (waits_begin_empty_loop env.rounds hgr).2,
      waits_begin_empty_destroy true env.term hgt,
      wb_ok, Bool.and_true, Bool.true_and]

/-- C1 (counterexample): the code clears only the local variable, not
the mailbox, before each wait; it relies on draining after each wake.
If START-OF-INPUT is delivered after the worker released the mutex
following the RECOGNIZE response but before it re-acquired it for the
result loop, the first result-loop wait begins with an occupied
mailbox (and, the stored signal having been missed, the stale event is
still there when the termination wait begins). -/
theorem C1_mailbox_empty_counterexample :
    waits_begin_empty (asr_session_run c1_cex_env).trace = false := by
  decide

/-- C1 (witness): a fully successful run with no interposed
deliveries. -/
theorem C1_mailbox_empty_at_waits_witness :
    waits_begin_empty (asr_session_run happy_env).trace = true :=
  C1_mailbox_empty_at_waits happy_env rfl rfl (by decide) rfl

/-- C2 (counterexample): the claim fails for the streaming flag — the
state machine sets it (step 4 of `asr_session_run`, after the
RECOGNIZE response check) without holding the mutex, so a run's trace
contains a streaming-flag access outside the mutex.  (The stream-read
callback likewise reads and clears the flag without the mutex.) -/
theorem C2_shared_accesses_counterexample :
    shared_accesses_locked (asr_session_run happy_env).trace = false := by
  decide

/-- C8: in every run that reaches the result loop and in which no
RECOGNITION-COMPLETE event arrives during the result-wait window, the
loop exits through the timeout branch retaining no message, the
result-parsing step is skipped, and the termination routine (terminate
request, when accepted, plus resource release) still executes. -/
theorem C8_timeout_path (env : RunEnv)
    (hca : env.channel_add_ok = true)
    (h1 : sig_response_check (app_message_handler env.wake1 none).1 = true)
    (hg2 : env.gap2 = none)
    (hdgc : env.dg_create_ok = true) (hdgs : env.dg_send_ok = true)
    (h2 : mrcp_response_check (app_message_handler env.wake2 none).1
      MrcpRequestState.complete = true)
    (hg3 : env.gap3 = none)
    (hrc : env.rec_create_ok = true) (hrs : env.rec_send_ok = true)
    (h3 : mrcp_response_check (app_message_handler env.wake3 none).1
      MrcpRequestState.inprogress = true)
    (hnc : ∀ r ∈ env.rounds, is_recognition_complete r.gap = false ∧
      is_recognition_complete r.wake = false) :
    (asr_session_run env).result_message = none ∧
    Ev.timeoutExit ∈ (asr_session_run env).trace ∧
    Ev.resultParsed ∉ (asr_session_run env).trace ∧
    Ev.sessionReleased ∈ (asr_session_run env).trace ∧
    (env.term.terminate_ok = true →
      Ev.terminateRequested ∈ (asr_session_run env).trace) := by
  obtain ⟨mdg, hmdg⟩ :=
    define_grammar_message_create_some env.version env.grammar
  obtain ⟨mrc, hmrc⟩ := recognize_message_create_some env.version
  have hloop := result_wait_loop_no_complete env.rounds hnc
  unfold asr_session_run
  simp only [hca, hg2, hg3, hdgc, hdgs, hrc, hrs, eq_self_iff_true,
    if_true, wait_and_drain, deliver_opt, hmdg, hmrc, h1, h2, h3,
    Bool.true_eq_false, if_false, hloop.1]
  refine ⟨trivial, ?_, ?_, ?_, ?_⟩
  · simp [hloop.2]
  · apply not_mem_of_all_not_parse
    simp only [List.all_append, List.all_cons, List.all_nil,
      not_parse_handler, not_parse_deliver, not_parse_loop,
      not_parse_destroy, not_parse, Bool.and_true, Bool.true_and]
  · simp [sessionReleased_mem_destroy]
  · intro ht
    have := terminateRequested_mem_destroy env.term
      (result_wait_loop env.rounds none).2.1 ht
    simp [this]

/-- C8 witness: a run whose only loop round delivers START-OF-INPUT
between waits and then times out. -/
theorem C8_timeout_path_witness :
    (asr_session_run c1_cex_env).result_message = none ∧
    Ev.timeoutExit ∈ (asr_session_run c1_cex_env).trace ∧
    Ev.resultParsed ∉ (asr_session_run c1_cex_env).trace ∧
    Ev.sessionReleased ∈ (asr_session_run c1_cex_env).trace ∧
    (c1_cex_env.term.terminate_ok = true →
      Ev.terminateRequested ∈ (asr_session_run c1_cex_env).trace) :=
  C8_timeout_path c1_cex_env rfl (by decide) rfl rfl rfl (by decide) rfl
    rfl rfl (by decide) (by decide)
